import Mathlib

/-!
Verification of the signaling connection handler of the netlib repository
(internal/signaling/handler.go). The handler is embedded shallowly: each
read-loop iteration consumes a `LoopEvent` record carrying the outcomes of
the external calls that iteration makes (transport read, JSON decodes,
credential provider, sends, packet handler), and the run produces a trace
of observable effects. The keepalive goroutine is modelled separately as a
trace over ticker fires.
-/

namespace Netlib

/-- One second in nanoseconds, mirroring Go time.Second. -/
def timeSecond : Nat := 1000000000

/-- One hour in nanoseconds, mirroring Go time.Hour. -/
def timeHour : Nat := 3600 * timeSecond

/-- Mirrors the constant MaxConnectionTime = 1 * time.Hour in handler.go. -/
def MaxConnectionTime : Nat := 1 * timeHour

/-- The timeout of the fresh context built in the teardown defer:
context.WithTimeout of context.Background with time.Second*10. -/
def disconnectTimeout : Nat := 10 * timeSecond

/-- The keepalive ticker interval: time.NewTicker of 30 * time.Second. -/
def pingInterval : Nat := 30 * timeSecond

/-- Mirrors Go strings.ToLower restricted to the ASCII range used by the
browser detection (Char.toLower lowercases exactly ASCII letters). -/
def goToLower (s : String) : String := String.mk (s.data.map Char.toLower)

/-- True when the first list starts with the second list, on characters. -/
def charsStartWith (sub : List Char) : List Char → Bool :=
  fun l =>
    match sub, l with
    | [], _ => true
    | _ :: _, [] => false
    | a :: as, b :: bs => a == b && charsStartWith as bs

/-- True when sub occurs contiguously somewhere in the list. -/
def charsIn (sub : List Char) : List Char → Bool
  | [] => charsStartWith sub []
  | b :: bs => charsStartWith sub (b :: bs) || charsIn sub bs

/-- Mirrors Go strings.Contains s sub. -/
def goContains (s sub : String) : Bool := charsIn sub.data s.data

/-- Compression modes of the websocket library; the Go zero value (the
default when AcceptOptions leaves the field unset) is noContextTakeover. -/
inductive CompressionMode
  | noContextTakeover
  | contextTakeover
  | disabled
  deriving DecidableEq, Repr

/-- The two AcceptOptions fields the handler sets: InsecureSkipVerify and
CompressionMode. -/
structure AcceptOptions where
  insecureSkipVerify : Bool
  compressionMode : CompressionMode
  deriving DecidableEq, Repr

/-- Mirrors the isSafari computation in handler.go: the lowercased
User-Agent contains safari and contains neither chrome nor android. -/
def isSafariUA (userAgent : String) : Bool :=
  let ual := goToLower userAgent
  goContains ual "safari" && !goContains ual "chrome" && !goContains ual "android"

/-- Mirrors the acceptOptions value handler.go passes to websocket.Accept:
InsecureSkipVerify is always true, and CompressionMode is set to
CompressionDisabled exactly for Safari user agents. -/
def acceptOptionsFor (userAgent : String) : AcceptOptions :=
  let base : AcceptOptions :=
    { insecureSkipVerify := true, compressionMode := .noContextTakeover }
  if isSafariUA userAgent then { base with compressionMode := .disabled } else base

/-- Modelled from the spec: the cloudflare credentials payload is time-boxed
and opaque to this layer, so it is carried as an abstract value. -/
structure Credentials where
  payload : String
  deriving DecidableEq, Repr

/-- The close status used by the teardown defer, websocket.StatusInternalError. -/
inductive CloseStatus
  | statusInternalError
  deriving DecidableEq, Repr

/-- Modelled from the spec where the called packages are not under src:
util.ErrorAndDisconnect terminates the connection immediately (transport
fatal, no retry), util.ReplyError reports a request-level error back to the
sender leaving the connection open, metrics.RecordEvent is an asynchronous
fire-and-forget telemetry hand-off whose errors are not surfaced, and
TimeoutManager.Disconnected performs the disconnect bookkeeping. The
remaining constructors record calls visible directly in handler.go. -/
inductive Effect
  | errorAndDisconnect
  | warnPacketAfterClose (ty : String)
  | getCredentials
  | replyError
  | sendCredentials (c : Credentials)
  | recordEventAsync
  | handlePacket (ty : String)
  | close (status : CloseStatus) (reason : String)
  | disconnected (freshCtx : Bool) (timeoutNs : Nat)
  deriving DecidableEq, Repr

/-- The effects produced inside the dispatch switch of the read loop. -/
def Effect.isDispatch : Effect → Bool
  | .getCredentials => true
  | .replyError => true
  | .sendCredentials _ => true
  | .recordEventAsync => true
  | .handlePacket _ => true
  | _ => false

/-- The inputs of one read-loop iteration: whether ctx.Err() is still nil at
the top of the loop, the outcome of conn.Read, the result of the type-only
json.Unmarshal (none meaning a decode error), and oracles for the external
calls the dispatch may make: cloudflare.GetCredentials, peer.Send of the
credentials response, json.Unmarshal into metrics.EventParams, and
peer.HandlePacket together with whether that call sets the
closedPacketReceived flag of the peer. -/
structure LoopEvent where
  ctxAlive : Bool
  readOk : Bool
  typeDecode : Option String
  credsResult : Option Credentials
  credsSendOk : Bool
  eventDecodeOk : Bool
  handlePacketOk : Bool
  handlePacketSetsClosed : Bool
  deriving DecidableEq, Repr

/-- Result of one read-loop iteration body: its effects, the updated
closedPacketReceived flag, and whether the connection was terminated by
util.ErrorAndDisconnect. -/
structure StepResult where
  effects : List Effect
  closed : Bool
  terminated : Bool
  deriving DecidableEq, Repr

/-- The switch on typeOnly.Type in handler.go, reached only when the frame
decoded and no graceful close was received before. -/
def dispatch (closed : Bool) (e : LoopEvent) (ty : String) : StepResult :=
  match ty with
  | "credentials" =>
    match e.credsResult with
    | none => ⟨[.getCredentials, .replyError], closed, false⟩
    | some c =>
      if e.credsSendOk then ⟨[.getCredentials, .sendCredentials c], closed, false⟩
      else ⟨[.getCredentials, .sendCredentials c, .errorAndDisconnect], closed, true⟩
  | "event" =>
    if e.eventDecodeOk then ⟨[.recordEventAsync], closed, false⟩
    else ⟨[.errorAndDisconnect], closed, true⟩
  | "pong" => ⟨[], closed, false⟩
  | other =>
    if e.handlePacketOk then
      ⟨[.handlePacket other], closed || e.handlePacketSetsClosed, false⟩
    else
      ⟨[.handlePacket other, .errorAndDisconnect],
        closed || e.handlePacketSetsClosed, true⟩

/-- One iteration of the read loop after the ctx.Err() check: conn.Read,
the type-only decode, the closedPacketReceived drop check, then dispatch. -/
def loopBody (closed : Bool) (e : LoopEvent) : StepResult :=
  if e.readOk = false then ⟨[.errorAndDisconnect], closed, true⟩
  else
    match e.typeDecode with
    | none => ⟨[.errorAndDisconnect], closed, true⟩
    | some ty =>
      if closed then ⟨[.warnPacketAfterClose ty], closed, false⟩
      else dispatch closed e ty

/-- The read loop: for ctx.Err() == nil, run iterations until the context
dies, the event supply ends, or an iteration terminates the connection.
Returns the accumulated effects and the final closedPacketReceived flag. -/
def readLoop (closed : Bool) : List LoopEvent → List Effect × Bool
  | [] => ([], closed)
  | e :: rest =>
    if e.ctxAlive = false then ([], closed)
    else
      let r := loopBody closed e
      if r.terminated then (r.effects, r.closed)
      else
        let k := readLoop r.closed rest
        (r.effects ++ k.1, k.2)

/-- The deferred teardown in handler.go: close the transport with
StatusInternalError, and when no graceful close packet was received call
TimeoutManager.Disconnected with a 10 second context built freshly from
context.Background (freshCtx = true). -/
def teardown (closed : Bool) : List Effect :=
  Effect.close .statusInternalError "unexpceted closure" ::
    (if closed then [] else [Effect.disconnected true disconnectTimeout])

/-- An upgrade request: its User-Agent header and whether websocket.Accept
succeeds. -/
structure Request where
  userAgent : String
  upgradeOk : Bool
  deriving DecidableEq, Repr

/-- Observable effects of the whole per-connection handler function. -/
inductive HandlerEffect
  | withTimeout (ns : Nat)
  | accept (opts : AcceptOptions)
  | errorAndAbort
  | wgAdd (n : Nat)
  | wgDone
  | conn (e : Effect)
  deriving DecidableEq, Repr

/-- The per-connection handler function in handler.go: derive the context
with the MaxConnectionTime timeout, call websocket.Accept with the computed
options, abort with a client error when the upgrade fails, otherwise
wg.Add(1), run the read loop, then run the deferred teardown and wg.Done()
(defers run in reverse registration order, so teardown precedes Done). -/
def handleRequest (r : Request) (events : List LoopEvent) : List HandlerEffect :=
  HandlerEffect.withTimeout MaxConnectionTime ::
    HandlerEffect.accept (acceptOptionsFor r.userAgent) ::
      (if r.upgradeOk = false then [HandlerEffect.errorAndAbort]
       else
         let run := readLoop false events
         HandlerEffect.wgAdd 1 ::
           (run.1.map HandlerEffect.conn ++
             (teardown run.2).map HandlerEffect.conn ++ [HandlerEffect.wgDone]))

/-- Outcome of one keepalive send of the ping packet. -/
inductive PingSendResult
  | ok
  | pipeError
  | otherError
  deriving DecidableEq, Repr

/-- Effects of the keepalive goroutine. -/
inductive KeepaliveEffect
  | sendPing (ty : String)
  | logPingFailure
  deriving DecidableEq, Repr

/-- The keepalive goroutine in handler.go: on every ticker fire send the
ping packet; log only failures that are not pipe errors (util.IsPipeError);
never exit the loop on a failure. The input list holds one send outcome per
ticker fire while ctx is alive; the list ends when ctx.Done fires. -/
def keepaliveLoop : List PingSendResult → List KeepaliveEffect
  | [] => []
  | r :: rest =>
    (KeepaliveEffect.sendPing "ping" ::
      (match r with
       | .otherError => [KeepaliveEffect.logPingFailure]
       | _ => [])) ++ keepaliveLoop rest

/-- A concrete event whose type decodes to event but whose EventParams
decode fails, as a frame such as a JSON object carrying type event with a
wrongly typed telemetry field would produce. -/
def evBadEvent : LoopEvent :=
  { ctxAlive := true, readOk := true, typeDecode := some "event",
    credsResult := none, credsSendOk := true, eventDecodeOk := false,
    handlePacketOk := true, handlePacketSetsClosed := false }

/-- A concrete event-typed frame whose telemetry decode succeeds. -/
def evGoodEvent : LoopEvent :=
  { ctxAlive := true, readOk := true, typeDecode := some "event",
    credsResult := none, credsSendOk := true, eventDecodeOk := true,
    handlePacketOk := true, handlePacketSetsClosed := false }

/-- A concrete iteration with a transport read failure. -/
def evReadErr : LoopEvent :=
  { ctxAlive := true, readOk := false, typeDecode := none,
    credsResult := none, credsSendOk := true, eventDecodeOk := true,
    handlePacketOk := true, handlePacketSetsClosed := false }

/-- A concrete frame that fails the type-only JSON decode. -/
def evBadType : LoopEvent :=
  { ctxAlive := true, readOk := true, typeDecode := none,
    credsResult := none, credsSendOk := true, eventDecodeOk := true,
    handlePacketOk := true, handlePacketSetsClosed := false }

/-- A concrete credentials request on which the provider fails. -/
def evCredsFail : LoopEvent :=
  { ctxAlive := true, readOk := true, typeDecode := some "credentials",
    credsResult := none, credsSendOk := true, eventDecodeOk := true,
    handlePacketOk := true, handlePacketSetsClosed := false }

/-- A concrete well-formed pong frame. -/
def evPong : LoopEvent :=
  { ctxAlive := true, readOk := true, typeDecode := some "pong",
    credsResult := none, credsSendOk := true, eventDecodeOk := true,
    handlePacketOk := true, handlePacketSetsClosed := false }

/-- A concrete iteration whose ctx has expired at the top of the loop. -/
def evCtxDead : LoopEvent :=
  { ctxAlive := false, readOk := true, typeDecode := some "pong",
    credsResult := none, credsSendOk := true, eventDecodeOk := true,
    handlePacketOk := true, handlePacketSetsClosed := false }

/-- A concrete request whose upgrade succeeds. -/
def reqOk : Request := { userAgent := "testclient", upgradeOk := true }

/-- A concrete request whose upgrade fails. -/
def reqBad : Request := { userAgent := "testclient", upgradeOk := false }

theorem dispatch_no_disconnected (closed : Bool) (e : LoopEvent) (ty : String)
    (f : Bool) (t : Nat) :
    Effect.disconnected f t ∉ (dispatch closed e ty).effects := by
  unfold dispatch
  split
  · rcases h : e.credsResult with _ | c <;> rcases h2 : e.credsSendOk <;> simp [h, h2]
  · rcases h : e.eventDecodeOk <;> simp [h]
  · simp
  · rcases h : e.handlePacketOk <;> simp [h]

theorem loopBody_no_disconnected (closed : Bool) (e : LoopEvent)
    (f : Bool) (t : Nat) :
    Effect.disconnected f t ∉ (loopBody closed e).effects := by
  unfold loopBody
  split
  · simp
  · split
    · simp
    · split
      · simp
      · exact dispatch_no_disconnected _ _ _ _ _

theorem readLoop_no_disconnected (events : List LoopEvent) (closed : Bool)
    (f : Bool) (t : Nat) :
    Effect.disconnected f t ∉ (readLoop closed events).1 := by
  induction events generalizing closed with
  | nil => simp [readLoop]
  | cons e rest ih =>
    rcases hc : e.ctxAlive
    · simp [readLoop, hc]
    · by_cases ht : (loopBody closed e).terminated = true
      · simpa [readLoop, hc, ht] using loopBody_no_disconnected closed e f t
      · simp [readLoop, hc, ht, not_or]
        exact ⟨loopBody_no_disconnected _ _ _ _, ih _⟩

/-- Claim C1: for every upgraded connection, on every exit path of the
per-connection function the transport is closed with an error status, and
when closedPacketReceived is false TimeoutManager.Disconnected is invoked
with a freshly created context bounded to 10 seconds and independent of the
canceled connection context (freshCtx = true); when closedPacketReceived is
true, Disconnected is not invoked. -/
theorem handler_teardown_close_and_disconnect
    (r : Request) (events : List LoopEvent) (h : r.upgradeOk = true) :
    HandlerEffect.conn (Effect.close .statusInternalError "unexpceted closure")
        ∈ handleRequest r events ∧
    disconnectTimeout = 10 * timeSecond ∧
    ((readLoop false events).2 = false →
      HandlerEffect.conn (Effect.disconnected true disconnectTimeout)
        ∈ handleRequest r events) ∧
    ((readLoop false events).2 = true →
      HandlerEffect.conn (Effect.disconnected true disconnectTimeout)
        ∉ handleRequest r events) := by
  unfold handleRequest
  simp only [h]
  refine ⟨?_, rfl, ?_, ?_⟩
  · simp [teardown]
  · intro hc
    simp [teardown, hc]
  · intro hc
    simp [teardown, hc]
    exact readLoop_no_disconnected events false true disconnectTimeout

/-- Witness for claim C1 at a concrete upgraded request with an empty
event supply, where no graceful close was received. -/
theorem handler_teardown_witness :
    HandlerEffect.conn (Effect.close .statusInternalError "unexpceted closure")
        ∈ handleRequest reqOk [] ∧
    HandlerEffect.conn (Effect.disconnected true disconnectTimeout)
        ∈ handleRequest reqOk [] :=
  ⟨(handler_teardown_close_and_disconnect reqOk [] rfl).1,
   (handler_teardown_close_and_disconnect reqOk [] rfl).2.2.1 rfl⟩

/-- Claim C2 as stated is false: for the concrete inbound frame evBadEvent,
whose decoded type is event but whose telemetry-parameter decode fails, the
handler calls util.ErrorAndDisconnect and the connection is terminated, so
a failure of the event path does affect the connection. -/
theorem event_decode_failure_terminates :
    evBadEvent.typeDecode = some "event" ∧
    (loopBody false evBadEvent).terminated = true ∧
    Effect.errorAndDisconnect ∈ (loopBody false evBadEvent).effects ∧
    Effect.recordEventAsync ∉ (loopBody false evBadEvent).effects := by
  decide

/-- Claim C2 (amended): for every inbound frame whose decoded type is
event, the handler decodes the telemetry parameters; when the decode
succeeds the parameters are handed to the telemetry sink asynchronously and
the connection is unaffected (not terminated, no error sent to the client);
when the decode fails the connection is terminated like any malformed
frame. Sink failures never reach the connection (the hand-off carries no
error channel). -/
theorem event_dispatch_behavior (e : LoopEvent)
    (hr : e.readOk = true) (ht : e.typeDecode = some "event") :
    (e.eventDecodeOk = true →
      loopBody false e = ⟨[Effect.recordEventAsync], false, false⟩) ∧
    (e.eventDecodeOk = false →
      loopBody false e = ⟨[Effect.errorAndDisconnect], false, true⟩) := by
  constructor <;> intro hd <;> simp [loopBody, hr, ht, dispatch, hd]

/-- Witness for claim C2 (amended) at the concrete well-formed event frame. -/
theorem event_dispatch_witness :
    loopBody false evGoodEvent =
      ⟨[Effect.recordEventAsync], false, false⟩ :=
  (event_dispatch_behavior evGoodEvent rfl rfl).1 rfl

/-- Claim C3: once closedPacketReceived is set, every further frame that
decodes is logged (warn, received packet after close) and dropped with no
state change and no termination, and no frame whatsoever produces a
dispatch effect (credentials, event telemetry, or Peer.HandlePacket). -/
theorem packets_after_close_dropped (e : LoopEvent) (ty : String)
    (hr : e.readOk = true) (ht : e.typeDecode = some ty) :
    loopBody true e = ⟨[Effect.warnPacketAfterClose ty], true, false⟩ ∧
    (∀ e2 : LoopEvent, ∀ eff ∈ (loopBody true e2).effects,
      eff.isDispatch = false) := by
  constructor
  · simp [loopBody, hr, ht]
  · intro e2 eff hmem
    unfold loopBody at hmem
    rcases h2 : e2.readOk with _ | _
    · simp [h2] at hmem
      simp [hmem, Effect.isDispatch]
    · rcases h3 : e2.typeDecode with _ | ty2
      · simp [h2, h3] at hmem
        simp [hmem, Effect.isDispatch]
      · simp [h2, h3] at hmem
        simp [hmem, Effect.isDispatch]

/-- Witness for claim C3 at a concrete pong frame arriving after a
graceful close. -/
theorem packets_after_close_witness :
    loopBody true evPong = ⟨[Effect.warnPacketAfterClose "pong"], true, false⟩ :=
  (packets_after_close_dropped evPong "pong" rfl rfl).1

/-- Claim C4: for every inbound frame whose decoded type is credentials,
the credential provider is called; when it fails an error envelope is sent
back to the sender and the connection stays open (not terminated); when it
succeeds a credentials response embedding the returned credentials is sent
to the peer. -/
theorem credentials_request_handling (e : LoopEvent)
    (hr : e.readOk = true) (ht : e.typeDecode = some "credentials") :
    Effect.getCredentials ∈ (loopBody false e).effects ∧
    (e.credsResult = none →
      loopBody false e = ⟨[Effect.getCredentials, Effect.replyError], false, false⟩) ∧
    (∀ c, e.credsResult = some c →
      Effect.sendCredentials c ∈ (loopBody false e).effects) := by
  refine ⟨?_, ?_, ?_⟩
  · rcases hc : e.credsResult with _ | c
    · simp [loopBody, hr, ht, dispatch, hc]
    · rcases hs : e.credsSendOk <;> simp [loopBody, hr, ht, dispatch, hc, hs]
  · intro hc
    simp [loopBody, hr, ht, dispatch, hc]
  · intro c hc
    rcases hs : e.credsSendOk <;> simp [loopBody, hr, ht, dispatch, hc, hs]

/-- Witness for claim C4 at a concrete credentials request on which the
provider fails: the error is replied and the connection stays open. -/
theorem credentials_request_witness :
    loopBody false evCredsFail =
      ⟨[Effect.getCredentials, Effect.replyError], false, false⟩ :=
  (credentials_request_handling evCredsFail rfl rfl).2.1 rfl

/-- Claim C5: the read loop terminates the connection immediately on a
transport read error or on a frame failing the type-only decode, processing
none of the remaining events (no retry), and a dispatch effect is produced
only when the type decode succeeded. -/
theorem read_loop_fail_fast (e : LoopEvent) (rest : List LoopEvent)
    (closed : Bool) (hctx : e.ctxAlive = true) :
    (e.readOk = false →
      readLoop closed (e :: rest) = ([Effect.errorAndDisconnect], closed)) ∧
    (e.readOk = true → e.typeDecode = none →
      readLoop closed (e :: rest) = ([Effect.errorAndDisconnect], closed)) ∧
    (∀ eff ∈ (loopBody closed e).effects, eff.isDispatch = true →
      e.typeDecode ≠ none) := by
  refine ⟨?_, ?_, ?_⟩
  · intro hr
    simp [readLoop, hctx, loopBody, hr]
  · intro hr hd
    simp [readLoop, hctx, loopBody, hr, hd]
  · intro eff hmem hd hnone
    rcases hr : e.readOk with _ | _
    · simp [loopBody, hr] at hmem
      simp [hmem, Effect.isDispatch] at hd
    · simp [loopBody, hr, hnone] at hmem
      simp [hmem, Effect.isDispatch] at hd

/-- Witness for claim C5 at a concrete read failure: the loop emits only
the ErrorAndDisconnect call and stops. -/
theorem read_loop_fail_fast_witness :
    readLoop false [evReadErr] = ([Effect.errorAndDisconnect], false) :=
  (read_loop_fail_fast evReadErr [] false rfl).1 rfl

/-- Claim C6: the keepalive loop sends one ping envelope per 30 second
ticker fire for as long as the context lives (one send per tick, the loop
never exits early on a failure), logs exactly the send failures that are
not pipe errors, and logs nothing for pipe errors. -/
theorem keepalive_behavior (rs : List PingSendResult) :
    pingInterval = 30 * timeSecond ∧
    (keepaliveLoop rs).count (KeepaliveEffect.sendPing "ping") = rs.length ∧
    (keepaliveLoop rs).count KeepaliveEffect.logPingFailure =
      rs.count PingSendResult.otherError := by
  refine ⟨rfl, ?_, ?_⟩ <;>
    induction rs with
    | nil => simp [keepaliveLoop]
    | cons r rest ih =>
      cases r <;> simp [keepaliveLoop, List.count_cons, List.count_append, ih]

/-- Claim C7: MaxConnectionTime is one hour, the per-connection context is
derived with that timeout, and once the context has expired the read loop
exits at once regardless of the remaining events while teardown still
closes the transport. -/
theorem connection_lifetime_ceiling (r : Request) (e : LoopEvent)
    (rest : List LoopEvent) (closed : Bool)
    (hup : r.upgradeOk = true) (hctx : e.ctxAlive = false) :
    MaxConnectionTime = 3600 * 1000000000 ∧
    HandlerEffect.withTimeout MaxConnectionTime ∈ handleRequest r (e :: rest) ∧
    readLoop closed (e :: rest) = ([], closed) ∧
    HandlerEffect.conn (Effect.close .statusInternalError "unexpceted closure")
        ∈ handleRequest r (e :: rest) := by
  refine ⟨rfl, ?_, ?_, ?_⟩
  · simp [handleRequest]
  · simp [readLoop, hctx]
  · simp [handleRequest, hup, teardown]

/-- Witness for claim C7 at a concrete upgraded request whose first loop
iteration sees an expired context. -/
theorem connection_lifetime_witness :
    readLoop false [evCtxDead] = ([], false) ∧
    HandlerEffect.conn (Effect.close .statusInternalError "unexpceted closure")
        ∈ handleRequest reqOk [evCtxDead] :=
  ⟨(connection_lifetime_ceiling reqOk evCtxDead [] false rfl rfl).2.2.1,
   (connection_lifetime_ceiling reqOk evCtxDead [] false rfl rfl).2.2.2⟩

theorem count_map_conn_eq_zero (l : List Effect) (x : HandlerEffect)
    (hx : ∀ e : Effect, x ≠ HandlerEffect.conn e) :
    (l.map HandlerEffect.conn).count x = 0 := by
  rw [List.count_eq_zero]
  intro hmem
  rcases List.mem_map.1 hmem with ⟨e, _, he⟩
  exact hx e he.symm

/-- Claim C8: when the upgrade succeeds the handler increments the
wait-group exactly once and decrements it exactly once, the decrement being
the very last effect, after all teardown effects; when the upgrade fails
neither happens, so the wait-group reaches zero only once every accepted
connection has finished teardown. -/
theorem waitgroup_accounting (r : Request) (events : List LoopEvent) :
    (r.upgradeOk = true →
      (handleRequest r events).count (HandlerEffect.wgAdd 1) = 1 ∧
      (handleRequest r events).count HandlerEffect.wgDone = 1 ∧
      (handleRequest r events).getLast? = some HandlerEffect.wgDone) ∧
    (r.upgradeOk = false →
      (handleRequest r events).count (HandlerEffect.wgAdd 1) = 0 ∧
      (handleRequest r events).count HandlerEffect.wgDone = 0) := by
  constructor
  · intro hup
    have hrun : (handleRequest r events) =
        HandlerEffect.withTimeout MaxConnectionTime ::
          HandlerEffect.accept (acceptOptionsFor r.userAgent) ::
            HandlerEffect.wgAdd 1 ::
              ((readLoop false events).1.map HandlerEffect.conn ++
                ((teardown (readLoop false events).2).map HandlerEffect.conn ++
                  [HandlerEffect.wgDone])) := by
      simp [handleRequest, hup]
    refine ⟨?_, ?_, ?_⟩
    · rw [hrun]
      have h1 := count_map_conn_eq_zero (readLoop false events).1
        (HandlerEffect.wgAdd 1) (fun e h => by simp at h)
      have h2 := count_map_conn_eq_zero (teardown (readLoop false events).2)
        (HandlerEffect.wgAdd 1) (fun e h => by simp at h)
      simp [List.count_cons, List.count_append, h1, h2]
    · rw [hrun]
      have h1 := count_map_conn_eq_zero (readLoop false events).1
        HandlerEffect.wgDone (fun e h => by simp at h)
      have h2 := count_map_conn_eq_zero (teardown (readLoop false events).2)
        HandlerEffect.wgDone (fun e h => by simp at h)
      simp [List.count_cons, List.count_append, h1, h2]
    · rw [hrun]
      rw [show HandlerEffect.withTimeout MaxConnectionTime ::
          HandlerEffect.accept (acceptOptionsFor r.userAgent) ::
            HandlerEffect.wgAdd 1 ::
              ((readLoop false events).1.map HandlerEffect.conn ++
                ((teardown (readLoop false events).2).map HandlerEffect.conn ++
                  [HandlerEffect.wgDone])) =
        (HandlerEffect.withTimeout MaxConnectionTime ::
          HandlerEffect.accept (acceptOptionsFor r.userAgent) ::
            HandlerEffect.wgAdd 1 ::
              ((readLoop false events).1.map HandlerEffect.conn ++
                (teardown (readLoop false events).2).map HandlerEffect.conn)) ++
          [HandlerEffect.wgDone] by simp]
      exact List.getLast?_concat _
  · intro hup
    simp [handleRequest, hup, List.count_cons]

/-- Witness for claim C8 at a concrete upgraded request. -/
theorem waitgroup_accounting_witness :
    (handleRequest reqOk []).count (HandlerEffect.wgAdd 1) = 1 ∧
    (handleRequest reqOk []).count HandlerEffect.wgDone = 1 ∧
    (handleRequest reqOk []).getLast? = some HandlerEffect.wgDone :=
  (waitgroup_accounting reqOk []).1 rfl

/-- Claim C9: after a graceful close has been received, a transport read
error or a frame failing the type-only decode still terminates the
connection (ErrorAndDisconnect), because those checks run before the
closedPacketReceived check: the frame is not logged and dropped. -/
theorem malformed_after_close_terminates (e : LoopEvent)
    (rest : List LoopEvent) (hctx : e.ctxAlive = true)
    (h : e.readOk = false ∨ (e.readOk = true ∧ e.typeDecode = none)) :
    readLoop true (e :: rest) = ([Effect.errorAndDisconnect], true) ∧
    (∀ ty, Effect.warnPacketAfterClose ty ∉ (readLoop true (e :: rest)).1) := by
  have hbody : loopBody true e = ⟨[Effect.errorAndDisconnect], true, true⟩ := by
    rcases h with hr | ⟨hr, hd⟩
    · simp [loopBody, hr]
    · simp [loopBody, hr, hd]
  constructor
  · simp [readLoop, hctx, hbody]
  · intro ty
    simp [readLoop, hctx, hbody]

/-- Witness for claim C9 at a concrete undecodable frame arriving after a
graceful close. -/
theorem malformed_after_close_witness :
    readLoop true [evBadType] = ([Effect.errorAndDisconnect], true) :=
  (malformed_after_close_terminates evBadType [] rfl (Or.inr ⟨rfl, rfl⟩)).1

/-- Claim C10: every upgrade skips origin verification, and the websocket
is accepted with compression disabled exactly when the lowercased
User-Agent contains safari but neither chrome nor android; every other
request keeps the default compression mode. -/
theorem safari_compression (ua : String) :
    (acceptOptionsFor ua).insecureSkipVerify = true ∧
    isSafariUA ua =
      (goContains (goToLower ua) "safari" && !goContains (goToLower ua) "chrome" &&
        !goContains (goToLower ua) "android") ∧
    (isSafariUA ua = true →
      (acceptOptionsFor ua).compressionMode = CompressionMode.disabled) ∧
    (isSafariUA ua = false →
      (acceptOptionsFor ua).compressionMode = CompressionMode.noContextTakeover) := by
  refine ⟨?_, rfl, ?_, ?_⟩
  · rcases h : isSafariUA ua <;> simp [acceptOptionsFor, h]
  · intro h
    simp [acceptOptionsFor, h]
  · intro h
    simp [acceptOptionsFor, h]

/-- Witness for claim C10: a Safari user agent gets compression disabled
and a Chrome user agent keeps the default mode. -/
theorem safari_compression_witness :
    (acceptOptionsFor "safari browser").compressionMode =
      CompressionMode.disabled ∧
    (acceptOptionsFor "chrome safari").compressionMode =
      CompressionMode.noContextTakeover :=
  ⟨(safari_compression "safari browser").2.2.1 (by decide),
   (safari_compression "chrome safari").2.2.2 (by decide)⟩

end Netlib
